import Mathlib

/-!
# LifeEmbedding: verification of the reduction/clustering/similarity pipeline

Shallow embedding of the repository's core pipeline:
* `scripts/dim_reduction.py` — offline training: PCA + UMAP reduction,
  K-means clustering, persistence of 3D coordinates to BigQuery;
* `backend/main.py` — the serving side: startup model loading and the
  `generate_user_embedding` query handler.

Machine floats are modelled as rationals (`ℚ`); external libraries
(sklearn PCA/KMeans, umap-learn, BigQuery, Vertex AI) are modelled as
abstract functions, with their documented failure conditions (for example
sklearn's `n_components <= min(n_samples, n_features)` check) made
explicit.  Components of the repository that are referenced but absent
from the source tree (`backend/embeddings.py`, `backend/database.py`)
are modelled from the specification and marked as such in their doc
comments.
-/

namespace LifeEmbedding

/-- A vector of reals (one row of an embedding matrix). -/
abbrev Vec := List ℚ

/-- A point in the reduced 3-dimensional space. -/
structure Coordinate3D where
  x : ℚ
  y : ℚ
  z : ℚ
deriving DecidableEq

/-- The fixed normalization constant used to derive similarity scores,
`max_distance = 20.0` in `generate_user_embedding` (`backend/main.py`). -/
def max_distance : ℚ := 20

/-- The score `similarity_score = max(0.0, 1.0 - (distance / max_distance))`
from `backend/main.py` (the similar-person loop of
`generate_user_embedding`). -/
def similarity_score (distance : ℚ) : ℚ :=
  max 0 (1 - distance / max_distance)

/-- Squared Euclidean distance between two 3D points.  The serving code
ranks corpus entries by Euclidean distance; sorting by the squared
distance yields exactly the same order, and keeps the model computable
over `ℚ`. -/
def distSq (p q : Coordinate3D) : ℚ :=
  (p.x - q.x) ^ 2 + (p.y - q.y) ^ 2 + (p.z - q.z) ^ 2

/-- Comparison used to order similar-person results: ascending squared
distance, ties broken by ascending person id. -/
def pairLe (a b : String × ℚ) : Bool :=
  decide (a.2 < b.2 ∨ (a.2 = b.2 ∧ a.1 ≤ b.1))

/-- Modelled from the spec: `EmbeddingService.find_similar_persons`
(`backend/embeddings.py` is not in the source tree; only its caller in
`backend/main.py` is).  Spec §4.4: "`top_k_similar(point, corpus_points,
k)` → ordered sequence of (id, distance) ascending by Euclidean
distance, ties broken by ascending id, truncated to length
min(k, corpus size)."  Distances are carried as squared Euclidean
distances (`distSq`); ordering by `distSq` coincides with ordering by
Euclidean distance. -/
def top_k_similar (point : Coordinate3D) (corpus : List (String × Coordinate3D))
    (k : ℕ) : List (String × ℚ) :=
  ((corpus.map (fun p => (p.1, distSq point p.2))).mergeSort pairLe).take k

/-- Semantics of `np.argmax` over a list: the index of the first occurrence of the
maximum value; `none` on the empty list, where `np.argmax` raises
`ValueError: attempt to get argmax of an empty sequence`. -/
def argmaxIdx : List ℚ → Option ℕ
  | [] => none
  | x :: xs =>
    match argmaxIdx xs with
    | none => some 0
    | some j => if xs.getD j 0 ≤ x then some 0 else some (j + 1)

/-- Semantics of `np.diff`: successive differences, `out[i] = a[i+1] - a[i]`. -/
def diffL (l : List ℚ) : List ℚ :=
  List.zipWith (fun a b => b - a) l l.tail

/-- The candidate cluster counts tried by `determine_optimal_clusters`:
`range(2, min(max_k + 1, len(self.coordinates_3d)))` from
`scripts/dim_reduction.py`. -/
def kCandidates (n maxK : ℕ) : List ℕ :=
  List.range' 2 (min (maxK + 1) n - 2)

/-- Embedding of `DimensionalityReducer.determine_optimal_clusters`
(`scripts/dim_reduction.py`).  `n` is the corpus size
(`len(self.coordinates_3d)`); `inertia k` and `sil k` stand for the
library evaluations `KMeans(n_clusters=k, ...).fit_predict` followed by
`kmeans.inertia_` and `silhouette_score` on the fixed corpus.  The elbow
estimate (`np.argmax` of the absolute second differences of the inertia
curve, shifted by 2) is computed and printed as a diagnostic but never
used for the returned value; the result is
`np.argmax(silhouette_scores) + 2`, which raises on an empty candidate
range (modelled as `Except.error`). -/
def determine_optimal_clusters (n maxK : ℕ) (inertia sil : ℕ → ℚ) :
    Except String ℕ :=
  let ks := kCandidates n maxK
  let inertias := ks.map inertia
  let sils := ks.map sil
  let _elbowK : ℕ :=
    if 2 < inertias.length then
      ((argmaxIdx ((diffL (diffL inertias)).map (fun q => |q|))).getD 0) + 2
    else 2
  match argmaxIdx sils with
  | none => Except.error "attempt to get argmax of an empty sequence"
  | some i => Except.ok (i + 2)

/-- One row of `embeddings_data` as loaded by
`load_embeddings_from_bigquery` (metadata only; the vector itself is
kept separately, as in `embeddings_list`). -/
structure PersonData where
  person_id : String
  name : String
  description : String
  occupation : List String
deriving DecidableEq

/-- One record of the `coordinates_3d` BigQuery table, as prepared by
`save_coordinates_to_bigquery`. -/
structure CoordRecord where
  person_id : String
  x : ℚ
  y : ℚ
  z : ℚ
  cluster_id : ℕ
  cluster_label : String
  reduction_method : String
  created_at : String
deriving DecidableEq

/-- The record-preparation loop of `save_coordinates_to_bigquery`
(`scripts/dim_reduction.py`): one record per entry of
`embeddings_data`, pairing it with `coordinates_3d[i]` and
`cluster_labels[i]`.  `labelMap` stands for the result of
`generate_cluster_labels` (cluster id to descriptive label). -/
def buildRecords (data : List PersonData) (coords : List Coordinate3D)
    (labels : List ℕ) (labelMap : ℕ → String) (ts : String) :
    List CoordRecord :=
  (data.zip (coords.zip labels)).map (fun p =>
    { person_id := p.1.person_id
      x := p.2.1.x
      y := p.2.1.y
      z := p.2.1.z
      cluster_id := p.2.2
      cluster_label := labelMap p.2.2
      reduction_method := "PCA(50D) + UMAP(3D)"
      created_at := ts })

/-- Result of `save_coordinates_to_bigquery`: the post-state of the
`coordinates_3d` table, whether a local JSON backup was written on this
path, and the returned count. -/
structure SaveResult where
  table : List CoordRecord
  localSaved : Bool
  returned : ℕ
deriving DecidableEq

/-- Embedding of `DimensionalityReducer.save_coordinates_to_bigquery`
(`scripts/dim_reduction.py`).  The function first counts the existing
rows of the `coordinates_3d` table; if the table is non-empty it skips
the BigQuery insert entirely (because the streaming buffer prevents
`DELETE`), saves the new coordinates locally only, and returns the
existing row count.  Only when the table is empty are the new records
inserted.  The BigQuery service itself is assumed reachable and the
insert error-free (`insert_rows_json` returning no errors). -/
def save_coordinates_to_bigquery (prior : List CoordRecord)
    (records : List CoordRecord) : SaveResult :=
  if 0 < prior.length then
    { table := prior, localSaved := true, returned := prior.length }
  else
    { table := records, localSaved := false, returned := records.length }

/-- Semantics of `np.array`: it succeeds on a list of rows only when all rows share one
length (otherwise it raises on the inhomogeneous shape). -/
def allSameLength (rows : List Vec) : Bool :=
  match rows with
  | [] => true
  | r :: rs => rs.all (fun s => s.length == r.length)

/-- The external-library calls of the training pipeline, abstracted:
sklearn's PCA `fit_transform`, umap-learn's `fit_transform`, KMeans
label assignment, the per-k KMeans inertia and silhouette evaluations
used by `determine_optimal_clusters`, and `generate_cluster_labels`
(whose output depends on the label assignment). -/
structure PipelineLibs where
  pcaFit : List Vec → List Vec
  umapFit : List Vec → List Coordinate3D
  kmeansLabels : ℕ → List Coordinate3D → List ℕ
  kmeansInertia : ℕ → ℚ
  silScore : ℕ → ℚ
  labelMap : List ℕ → ℕ → String

/-- Outcome of one `run_full_pipeline` invocation: a normal early return
(the `if num_embeddings == 0` branch, which only prints a message), a
normal completion (with the count returned by the save step and the
cluster count used), or an uncaught exception. -/
inductive PipelineOutcome where
  | earlyExit
  | completed (returned : ℕ) (nClusters : ℕ)
  | exn (msg : String)
deriving DecidableEq

/-- Embedding of `DimensionalityReducer.run_full_pipeline` (`scripts/dim_reduction.py`),
returning the outcome together with the post-state of the
`coordinates_3d` table.  The guards of the external calls are explicit:
`np.array` rejects inhomogeneous row lengths; sklearn's PCA requires
`n_components = 50 ≤ min(n_samples, n_features)`; KMeans requires
`n_clusters ≤ n_samples`; `silhouette_score` requires
`2 ≤ n_clusters ≤ n_samples − 1`.  `nClusters = none` selects the
auto-detection path through `determine_optimal_clusters`
(with `max_k = 15`).  Nowhere is any per-vector dimension check against
768 performed, and no `DataError` exists in the source. -/
def run_full_pipeline (libs : PipelineLibs)
    (corpus : List (PersonData × Vec)) (prior : List CoordRecord)
    (nClusters : Option ℕ) (ts : String) :
    PipelineOutcome × List CoordRecord :=
  let vectors := corpus.map (fun p => p.2)
  if allSameLength vectors then
    if corpus.length = 0 then (PipelineOutcome.earlyExit, prior)
    else
      let d := (vectors.headD []).length
      if min corpus.length d < 50 then
        (PipelineOutcome.exn "PCA: n_components greater than min(n_samples, n_features)", prior)
      else
        let x50 := libs.pcaFit vectors
        let coords := libs.umapFit x50
        let kRes : Except String ℕ :=
          match nClusters with
          | some k => Except.ok k
          | none =>
            determine_optimal_clusters corpus.length 15 libs.kmeansInertia libs.silScore
        match kRes with
        | Except.error m => (PipelineOutcome.exn m, prior)
        | Except.ok k =>
          if corpus.length < k then
            (PipelineOutcome.exn "KMeans: n_samples smaller than n_clusters", prior)
          else if 2 ≤ k ∧ k ≤ corpus.length - 1 then
            let labels := libs.kmeansLabels k coords
            let records := buildRecords (corpus.map (fun p => p.1)) coords labels
              (libs.labelMap labels) ts
            let res := save_coordinates_to_bigquery prior records
            (PipelineOutcome.completed res.returned k, res.table)
          else
            (PipelineOutcome.exn "silhouette: invalid number of labels", prior)
  else (PipelineOutcome.exn "np.array: inhomogeneous shape", prior)

/-- A coordinate record left in the table by an earlier training run. -/
def oldRecord : CoordRecord :=
  { person_id := "old", x := 0, y := 0, z := 0, cluster_id := 0,
    cluster_label := "Old", reduction_method := "PCA(50D) + UMAP(3D)",
    created_at := "t0" }

/-- A coordinate record produced by the current training run. -/
def newRecord : CoordRecord :=
  { person_id := "new", x := 1, y := 1, z := 1, cluster_id := 0,
    cluster_label := "New", reduction_method := "PCA(50D) + UMAP(3D)",
    created_at := "t1" }

/-- A concrete instantiation of the abstracted library calls, used to
evaluate the pipeline on concrete corpora. -/
def trivialLibs : PipelineLibs :=
  { pcaFit := fun v => v
    umapFit := fun v => v.map (fun _ => { x := 0, y := 0, z := 0 })
    kmeansLabels := fun _ cs => cs.map (fun _ => 0)
    kmeansInertia := fun _ => 0
    silScore := fun _ => 0
    labelMap := fun _ _ => "Cluster 0" }

/-- A corpus of 51 entries whose vectors all have length 767 (not 768). -/
def corpus767 : List (PersonData × Vec) :=
  List.replicate 51
    ({ person_id := "p", name := "p", description := "", occupation := [] },
     List.replicate 767 (0 : ℚ))

/-- Stage-1 parameters of the reduction model: the fitted mean vector
and projection basis (component rows) of sklearn's PCA. -/
structure PcaModel where
  mean : Vec
  components : List Vec

/-- Stage-2 of the reduction model: the fitted UMAP embedding, opaque
behind its inference mapping from the stage-1 output to 3D. -/
structure UmapModel where
  embed : Vec → Coordinate3D

/-- Dot product of two vectors. -/
def dotQ (a b : Vec) : ℚ :=
  (List.zipWith (fun x y => x * y) a b).sum

/-- Stage-1 inference (sklearn PCA `transform` on a single vector):
centre by the fitted mean, then project on the component rows. -/
def pcaProject (m : PcaModel) (v : Vec) : Vec :=
  m.components.map
    (fun row => dotQ row (List.zipWith (fun a b => a - b) v m.mean))

/-- The persisted two-stage reduction model as a single unit. -/
structure ReductionModel where
  pca : PcaModel
  umap : UmapModel

/-- Modelled from the spec: the serving-side transform
(`EmbeddingService.project_to_3d` in `backend/embeddings.py` is absent
from the source tree).  Spec §4.1: "`transform(vector[768])` →
`Coordinate3D`: re-applies the stage-1 affine projection then the
stage-2 embedding's inference mapping." -/
def ReductionModel.transform (M : ReductionModel) (v : Vec) : Coordinate3D :=
  M.umap.embed (pcaProject M.pca v)

/-- Serving-side projection failure: the query vector is not 768-long. -/
inductive ProjError where
  | dimensionMismatch
deriving DecidableEq

/-- Modelled from the spec: `EmbeddingService.project_to_3d`
(`backend/embeddings.py` is absent from the source tree; only its caller
in `backend/main.py` is present).  Spec §7 and §8:
"DimensionMismatchError (query vector length ≠ 768) — rejected
per-query"; "a vector of length 767 passed to `project` → raises
DimensionMismatchError". -/
def project_to_3d (pca : PcaModel) (um : UmapModel) (v : Vec) :
    Except ProjError Coordinate3D :=
  if v.length = 768 then
    Except.ok (ReductionModel.transform { pca := pca, umap := um } v)
  else Except.error ProjError.dimensionMismatch

/-- The serving process's state: the module-level globals of
`backend/main.py` (`_models_loaded`, `_pca_model`, `_umap_model`, plus
the embedding service's installed reduction models), together with the
ambient wall clock the handler reads for its processing-time field. -/
structure ServerState where
  models_loaded : Bool
  pca_model : Option PcaModel
  umap_model : Option UmapModel
  svc_pca : Option PcaModel
  svc_umap : Option UmapModel
  clock : ℕ

/-- The state at process start: nothing loaded. -/
def initialState : ServerState :=
  { models_loaded := false, pca_model := none, umap_model := none,
    svc_pca := none, svc_umap := none, clock := 0 }

/-- Result of startup: either the process is running with some state, or
it crashed (never produced by `startup_event`; the constructor exists so
that not crashing is a theorem rather than a typing accident). -/
inductive StartupOutcome where
  | running (st : ServerState)
  | crashed

/-- The `startup_event` handler of `backend/main.py`: when both model
files exist, load the PCA pickle, then the UMAP pickle, install them in
the embedding service and set `_models_loaded = True`; any load
exception is caught and logged, leaving the flag `False`; missing files
are logged likewise.  The process keeps serving in every case. -/
def startup_event (st : ServerState) (filesExist : Bool)
    (loadPca : Except String PcaModel)
    (loadUmap : Except String UmapModel) : StartupOutcome :=
  if filesExist then
    match loadPca with
    | Except.error _ => StartupOutcome.running st
    | Except.ok p =>
      match loadUmap with
      | Except.error _ =>
        StartupOutcome.running { st with pca_model := some p }
      | Except.ok u =>
        StartupOutcome.running
          { st with
            pca_model := some p
            umap_model := some u
            svc_pca := some p
            svc_umap := some u
            models_loaded := true }
  else StartupOutcome.running st

/-- Cluster metadata as returned by the database layer. -/
structure ClusterInfo where
  cluster_id : ℕ
  cluster_label : String
  person_count : ℕ

/-- The body of a `/api/v1/generate-embedding` request. -/
structure UserRequest where
  life_events : List String
  name : Option String
  description : Option String

/-- The successful response of `generate_user_embedding`. -/
structure UserResponse where
  user_coordinates : Coordinate3D
  nearest_cluster : ClusterInfo
  similar : List (String × ℚ)
  narrative_text : String
  embedding_dimension : ℕ
  processing_time_ms : ℕ

/-- Outcome of one query: a successful response, an HTTP error with its
status and detail (FastAPI's `HTTPException`), or a process crash (never
produced; the constructor exists so that not crashing is a theorem, not
a typing accident). -/
inductive QueryOutcome where
  | ok (resp : UserResponse)
  | httpError (status : ℕ) (detail : String)
  | crash

/-- The handler's external collaborators, abstracted: narrative
construction and the Vertex AI embedding call (`backend/embeddings.py`)
and the database reads (`backend/database.py`) — both files absent from
the source tree. -/
structure ServeEnv where
  narrative : UserRequest → String
  embed : String → Vec
  nearestCluster : Coordinate3D → Option ClusterInfo
  corpus : List (String × Coordinate3D)

/-- The `generate_user_embedding` handler of `backend/main.py`:
`if not _models_loaded: raise HTTPException(503, "Reduction models not
loaded. ...")`; then build the narrative, embed it, check
`embedding_service.pca_model is None` (another 503), project to 3D,
find the nearest cluster and the top-10 similar persons.  Any exception
escaping the body is converted by the handler's catch-all into a 500
"Error generating embedding" response. -/
def generate_user_embedding (env : ServeEnv) (st : ServerState)
    (req : UserRequest) : QueryOutcome :=
  if st.models_loaded = false then
    QueryOutcome.httpError 503
      "Reduction models not loaded. Cannot generate user embeddings."
  else
    let narrative := env.narrative req
    let e768 := env.embed narrative
    match st.svc_pca with
    | none =>
      QueryOutcome.httpError 503
        "PCA/UMAP models not available. Run dim_reduction.py first."
    | some pca =>
      match st.svc_umap with
      | none =>
        QueryOutcome.httpError 500 "Error generating embedding: no umap model"
      | some um =>
        match project_to_3d pca um e768 with
        | Except.error _ =>
          QueryOutcome.httpError 500
            "Error generating embedding: dimension mismatch"
        | Except.ok c =>
          match env.nearestCluster c with
          | none =>
            QueryOutcome.httpError 500 "Error generating embedding: no clusters"
          | some ncl =>
            QueryOutcome.ok
              { user_coordinates := c
                nearest_cluster := ncl
                similar := top_k_similar c env.corpus 10
                narrative_text := narrative
                embedding_dimension := 768
                processing_time_ms := st.clock }

/-- Request handling threads the server state explicitly; the handler
mutates no globals, so the state passes through unchanged. -/
def serveQuery (env : ServeEnv) (st : ServerState) (req : UserRequest) :
    QueryOutcome × ServerState :=
  (generate_user_embedding env st req, st)

/-- The projection step of the handler in isolation: it reads only the
embedding service's installed models and the query vector. -/
def serveProject (st : ServerState) (v : Vec) :
    Option (Except ProjError Coordinate3D) :=
  match st.svc_pca, st.svc_umap with
  | some p, some u => some (project_to_3d p u v)
  | _, _ => none

/-- An environment with no clusters and an empty corpus. -/
def trivialEnv : ServeEnv :=
  { narrative := fun _ => "", embed := fun _ => [],
    nearestCluster := fun _ => none, corpus := [] }

/-- A request with no life events. -/
def emptyRequest : UserRequest :=
  { life_events := [], name := none, description := none }

/-- A concrete PCA model with empty parameters. -/
def trivialPca : PcaModel := { mean := [], components := [] }

/-- A concrete UMAP stage mapping everything to the origin. -/
def trivialUmap : UmapModel := { embed := fun _ => { x := 0, y := 0, z := 0 } }

/-- A concrete two-stage model built from the trivial stages. -/
def trivialModel : ReductionModel := { pca := trivialPca, umap := trivialUmap }

/-- A query vector of length 767. -/
def vec767 : Vec := List.replicate 767 (0 : ℚ)

end LifeEmbedding

namespace LifeEmbedding

lemma pairLe_trans (a b c : String × ℚ) (hab : pairLe a b) (hbc : pairLe b c) :
    pairLe a c := by
  simp only [pairLe, decide_eq_true_eq] at *
  rcases hab with h1 | ⟨h1, h1'⟩ <;> rcases hbc with h2 | ⟨h2, h2'⟩
  · exact Or.inl (lt_trans h1 h2)
  · exact Or.inl (h2 ▸ h1)
  · exact Or.inl (h1 ▸ h2)
  · exact Or.inr ⟨h1.trans h2, le_trans h1' h2'⟩

lemma pairLe_total (a b : String × ℚ) : pairLe a b || pairLe b a := by
  simp only [pairLe, Bool.or_eq_true, decide_eq_true_eq]
  rcases lt_trichotomy a.2 b.2 with h | h | h
  · exact Or.inl (Or.inl h)
  · rcases le_total a.1 b.1 with h' | h'
    · exact Or.inl (Or.inr ⟨h, h'⟩)
    · exact Or.inr (Or.inr ⟨h.symm, h'⟩)
  · exact Or.inr (Or.inl h)

/-- C6: `top_k_similar` returns `min k |corpus|` results, pairwise
non-decreasing in (squared, hence Euclidean) distance with ties ordered
by ascending id. -/
theorem c6_top_k_similar_sorted (point : Coordinate3D)
    (corpus : List (String × Coordinate3D)) (k : ℕ) :
    (top_k_similar point corpus k).length = min k corpus.length ∧
    (top_k_similar point corpus k).Pairwise
      (fun a b => a.2 ≤ b.2 ∧ (a.2 = b.2 → a.1 ≤ b.1)) ∧
    (top_k_similar point corpus k).Pairwise
      (fun a b => Real.sqrt (a.2 : ℝ) ≤ Real.sqrt (b.2 : ℝ)) := by
  have hsorted :
      ((corpus.map (fun p => (p.1, distSq point p.2))).mergeSort pairLe).Pairwise
        (fun a b => pairLe a b) :=
    List.sorted_mergeSort pairLe_trans pairLe_total _
  have htake :
      (top_k_similar point corpus k).Pairwise (fun a b => pairLe a b) :=
    hsorted.sublist (List.take_sublist _ _)
  refine ⟨?_, ?_, ?_⟩
  · simp [top_k_similar]
  · refine htake.imp ?_
    intro a b hab
    simp only [pairLe, decide_eq_true_eq] at hab
    rcases hab with h | ⟨h, h'⟩
    · exact ⟨le_of_lt h, fun he => absurd (he ▸ h) (lt_irrefl _)⟩
    · exact ⟨le_of_eq h, fun _ => h'⟩
  · refine htake.imp ?_
    intro a b hab
    simp only [pairLe, decide_eq_true_eq] at hab
    have h2 : a.2 ≤ b.2 := by
      rcases hab with h | ⟨h, _⟩
      · exact le_of_lt h
      · exact le_of_eq h
    exact Real.sqrt_le_sqrt (by exact_mod_cast h2)

/-- C7: the similarity score equals `max(0, 1 − d/20)`, is non-increasing
in the distance, lies in `[0,1]` on `[0, 20]`, and vanishes for `d ≥ 20`. -/
theorem c7_similarity_score (d d₁ d₂ : ℚ) :
    similarity_score d = max 0 (1 - d / 20) ∧
    (d₁ ≤ d₂ → similarity_score d₂ ≤ similarity_score d₁) ∧
    (0 ≤ d → d ≤ 20 → 0 ≤ similarity_score d ∧ similarity_score d ≤ 1) ∧
    (20 ≤ d → similarity_score d = 0) := by
  refine ⟨rfl, ?_, ?_, ?_⟩
  · intro h
    simp only [similarity_score, max_distance]
    have h20 : d₁ / 20 ≤ d₂ / 20 := by linarith
    exact max_le_max le_rfl (by linarith)
  · intro h0 h20
    constructor
    · exact le_max_left _ _
    · apply max_le
      · norm_num
      · have : 0 ≤ d / 20 := by positivity
        simp only [similarity_score, max_distance]
        linarith
  · intro h
    have : 1 - d / max_distance ≤ 0 := by
      simp only [max_distance]
      have : (1 : ℚ) ≤ d / 20 := by
        rw [le_div_iff₀ (by norm_num : (0:ℚ) < 20)]
        linarith
      linarith
    simp only [similarity_score]
    exact max_eq_left this

/-- Witness for C7 at concrete distances. -/
theorem c7_similarity_score_witness :
    similarity_score 5 = max 0 (1 - 5 / 20) ∧
    (similarity_score 10 ≤ similarity_score 5) ∧
    (0 ≤ similarity_score 5 ∧ similarity_score 5 ≤ 1) ∧
    similarity_score 25 = 0 := by
  obtain ⟨ha, hb, hc, -⟩ := c7_similarity_score 5 5 10
  obtain ⟨-, -, -, hd⟩ := c7_similarity_score 25 0 0
  exact ⟨ha, hb (by norm_num), hc (by norm_num) (by norm_num), hd (by norm_num)⟩

lemma argmaxIdx_eq_none (l : List ℚ) : argmaxIdx l = none ↔ l = [] := by
  cases l with
  | nil => simp [argmaxIdx]
  | cons x xs =>
    cases h : argmaxIdx xs
    · simp [argmaxIdx, h]
    · simp only [argmaxIdx, h]
      split <;> simp

lemma argmaxIdx_cons_some (x : ℚ) (xs : List ℚ) (jt : ℕ)
    (hx : argmaxIdx xs = some jt) :
    argmaxIdx (x :: xs) =
      if xs.getD jt 0 ≤ x then some 0 else some (jt + 1) := by
  simp only [argmaxIdx, hx]

lemma argmaxIdx_spec (l : List ℚ) (i : ℕ) (h : argmaxIdx l = some i) :
    i < l.length ∧ ∀ j, j < l.length → l.getD j 0 ≤ l.getD i 0 := by
  induction l generalizing i with
  | nil => simp [argmaxIdx] at h
  | cons x xs ih =>
    cases hx : argmaxIdx xs with
    | none =>
      have hxs : xs = [] := (argmaxIdx_eq_none xs).mp hx
      subst hxs
      simp only [argmaxIdx, Option.some.injEq] at h
      subst h
      refine ⟨by simp, ?_⟩
      intro j hj
      simp only [List.length_cons, List.length_nil] at hj
      have hj0 : j = 0 := by omega
      subst hj0
      simp
    | some jt =>
      rw [argmaxIdx_cons_some x xs jt hx] at h
      obtain ⟨hjt, hmax⟩ := ih jt hx
      by_cases hc : xs.getD jt 0 ≤ x
      · rw [if_pos hc] at h
        simp only [Option.some.injEq] at h
        subst h
        refine ⟨by simp, ?_⟩
        intro j hj
        cases j with
        | zero => simp
        | succ m =>
          have hm : m < xs.length := by simpa using hj
          have := hmax m hm
          simpa [List.getD_cons_succ, List.getD_cons_zero] using le_trans this hc
      · rw [if_neg hc] at h
        simp only [Option.some.injEq] at h
        subst h
        refine ⟨by simpa using Nat.succ_lt_succ hjt, ?_⟩
        intro j hj
        cases j with
        | zero =>
          push_neg at hc
          simpa [List.getD_cons_succ, List.getD_cons_zero] using le_of_lt hc
        | succ m =>
          have hm : m < xs.length := by simpa using hj
          simpa [List.getD_cons_succ] using hmax m hm

lemma kCandidates_length (n maxK : ℕ) :
    (kCandidates n maxK).length = min (maxK + 1) n - 2 := by
  simp [kCandidates]

lemma map_getD_of_lt (f : ℕ → ℚ) (l : List ℕ) (j : ℕ) (hj : j < l.length) :
    (l.map f).getD j 0 = f (l.getD j 0) := by
  rw [List.getD_eq_getElem _ _ (by simpa using hj), List.getElem_map,
    List.getD_eq_getElem _ _ hj]

lemma kCandidates_getD (n maxK j : ℕ) (hj : j < (kCandidates n maxK).length) :
    (kCandidates n maxK).getD j 0 = 2 + j := by
  rw [List.getD_eq_getElem _ _ hj]
  simp [kCandidates]

lemma determine_ok (n maxK : ℕ) (inertia sil : ℕ → ℚ)
    (hn : 3 ≤ n) (hk : 2 ≤ maxK) :
    ∃ k, determine_optimal_clusters n maxK inertia sil = Except.ok k ∧
      k ∈ kCandidates n maxK ∧ ∀ m ∈ kCandidates n maxK, sil m ≤ sil k := by
  have hlen : 1 ≤ (kCandidates n maxK).length := by
    rw [kCandidates_length]; omega
  have hsils : ((kCandidates n maxK).map sil).length = (kCandidates n maxK).length := by
    simp
  have hne : argmaxIdx ((kCandidates n maxK).map sil) ≠ none := by
    intro hcon
    have := (argmaxIdx_eq_none _).mp hcon
    have : ((kCandidates n maxK).map sil).length = 0 := by rw [this]; rfl
    omega
  obtain ⟨i, hi⟩ := Option.ne_none_iff_exists'.mp hne
  obtain ⟨hilt, hmax⟩ := argmaxIdx_spec _ i hi
  rw [hsils] at hilt
  refine ⟨i + 2, ?_, ?_, ?_⟩
  · simp only [determine_optimal_clusters]
    rw [hi]
  · rw [kCandidates, List.mem_range'_1]
    rw [kCandidates_length] at hilt
    omega
  · intro m hm
    rw [kCandidates, List.mem_range'_1] at hm
    have hmlt : m - 2 < (kCandidates n maxK).length := by
      rw [kCandidates_length]; omega
    have hm2 : (kCandidates n maxK).getD (m - 2) 0 = m := by
      rw [kCandidates_getD n maxK _ hmlt]; omega
    have h1 : ((kCandidates n maxK).map sil).getD (m - 2) 0 ≤
        ((kCandidates n maxK).map sil).getD i 0 :=
      hmax (m - 2) (by rw [hsils]; exact hmlt)
    rw [map_getD_of_lt sil _ _ hmlt, map_getD_of_lt sil _ _ hilt, hm2,
      kCandidates_getD n maxK i hilt] at h1
    simpa [Nat.add_comm] using h1

/-- C3: `determine_optimal_clusters` tries every k in
`[2, min(max_k, n − 1)]`, returns a candidate whose silhouette score is
maximal over the candidate range, and its result is independent of the
inertia curve (the elbow estimate is a diagnostic only). -/
theorem c3_select_k (n maxK : ℕ) (inertia inertia' sil : ℕ → ℚ)
    (hn : 3 ≤ n) (hk : 2 ≤ maxK) :
    (∀ m, m ∈ kCandidates n maxK ↔ (2 ≤ m ∧ m ≤ min maxK (n - 1))) ∧
    (∃ k, determine_optimal_clusters n maxK inertia sil = Except.ok k ∧
      k ∈ kCandidates n maxK ∧ ∀ m ∈ kCandidates n maxK, sil m ≤ sil k) ∧
    determine_optimal_clusters n maxK inertia' sil =
      determine_optimal_clusters n maxK inertia sil := by
  refine ⟨?_, determine_ok n maxK inertia sil hn hk, rfl⟩
  intro m
  rw [kCandidates, List.mem_range'_1]
  omega

/-- Witness for C3 on a concrete corpus of 5 points with silhouette
scores increasing in k (so k = 4 = min(15, 5−1) is selected). -/
theorem c3_select_k_witness :
    (3 ≤ 5 ∧ 2 ≤ 15) ∧
    ((∀ m, m ∈ kCandidates 5 15 ↔ (2 ≤ m ∧ m ≤ min 15 (5 - 1))) ∧
     (∃ k, determine_optimal_clusters 5 15 (fun _ => 0) (fun j => (j : ℚ)) =
        Except.ok k ∧
       k ∈ kCandidates 5 15 ∧
       ∀ m ∈ kCandidates 5 15, (m : ℚ) ≤ (k : ℚ)) ∧
     determine_optimal_clusters 5 15 (fun _ => 1) (fun j => (j : ℚ)) =
       determine_optimal_clusters 5 15 (fun _ => 0) (fun j => (j : ℚ))) :=
  ⟨⟨by norm_num, by norm_num⟩,
    c3_select_k 5 15 (fun _ => 0) (fun _ => 1) (fun j => (j : ℚ))
      (by norm_num) (by norm_num)⟩

/-- C10: automatic cluster-count selection is total only for corpora of
at least 3 points: with fewer the candidate range is empty and
`np.argmax` over the empty silhouette list raises; with at least 3 a
cluster count is returned. -/
theorem c10_small_corpus (n maxK : ℕ) (inertia sil : ℕ → ℚ) :
    (n < 3 →
      determine_optimal_clusters n maxK inertia sil =
        Except.error "attempt to get argmax of an empty sequence") ∧
    (3 ≤ n → 2 ≤ maxK →
      ∃ k, determine_optimal_clusters n maxK inertia sil = Except.ok k) := by
  constructor
  · intro hn
    have hks : kCandidates n maxK = [] := by
      rw [kCandidates]
      have h0 : min (maxK + 1) n - 2 = 0 := by omega
      rw [h0]
      rfl
    simp only [determine_optimal_clusters, hks]
    rfl
  · intro hn hk
    obtain ⟨k, hke, -, -⟩ := determine_ok n maxK inertia sil hn hk
    exact ⟨k, hke⟩

/-- Witness for C10: a 2-point corpus fails, a 3-point corpus succeeds. -/
theorem c10_small_corpus_witness :
    determine_optimal_clusters 2 15 (fun _ => 0) (fun _ => 0) =
      Except.error "attempt to get argmax of an empty sequence" ∧
    ∃ k, determine_optimal_clusters 3 15 (fun _ => 0) (fun _ => 0) =
      Except.ok k :=
  ⟨(c10_small_corpus 2 15 (fun _ => 0) (fun _ => 0)).1 (by norm_num),
   (c10_small_corpus 3 15 (fun _ => 0) (fun _ => 0)).2 (by norm_num) (by norm_num)⟩

lemma sum_count_of_lt (labels : List ℕ) (k : ℕ) (h : ∀ l ∈ labels, l < k) :
    ∑ c ∈ Finset.range k, labels.count c = labels.length := by
  induction labels with
  | nil => simp
  | cons a t ih =>
    have ha : a < k := h a (List.mem_cons_self a t)
    have ht : ∀ l ∈ t, l < k := fun l hl => h l (List.mem_cons_of_mem a hl)
    simp only [List.count_cons]
    rw [Finset.sum_add_distrib, ih ht]
    have hone : (∑ c ∈ Finset.range k, if a == c then 1 else 0) = 1 := by
      simp only [beq_iff_eq]
      rw [Finset.sum_ite_eq (Finset.range k) a (fun _ => 1)]
      simp [Finset.mem_range.mpr ha]
    rw [hone]
    simp

/-- C8: the record set produced by a training run has one record per
corpus entry, every persisted cluster id lies in `[0, k)` (given that
the KMeans label assignment produces labels below `k`, the library's
guarantee), the per-cluster member counts sum to the corpus size, and
publishing into an empty table persists exactly this record set. -/
theorem c8_cluster_invariants (data : List PersonData)
    (coords : List Coordinate3D) (labels : List ℕ) (k : ℕ)
    (labelMap : ℕ → String) (ts : String)
    (hc : coords.length = data.length) (hl : labels.length = data.length)
    (hk : ∀ l ∈ labels, l < k) :
    (buildRecords data coords labels labelMap ts).length = data.length ∧
    (∀ r ∈ buildRecords data coords labels labelMap ts, r.cluster_id < k) ∧
    (∑ c ∈ Finset.range k, labels.count c) = data.length ∧
    (save_coordinates_to_bigquery []
        (buildRecords data coords labels labelMap ts)).table =
      buildRecords data coords labels labelMap ts := by
  refine ⟨?_, ?_, ?_, ?_⟩
  · simp [buildRecords, hc, hl]
  · intro r hr
    simp only [buildRecords, List.mem_map] at hr
    obtain ⟨⟨pd, pc, pl⟩, hp, rfl⟩ := hr
    have h2 := (List.of_mem_zip hp).2
    have h3 := (List.of_mem_zip h2).2
    exact hk pl h3
  · rw [sum_count_of_lt labels k hk, hl]
  · simp [save_coordinates_to_bigquery]

/-- Witness for C8 on a concrete 2-point corpus with k = 2. -/
theorem c8_cluster_invariants_witness :
    (buildRecords
        [{ person_id := "a", name := "a", description := "", occupation := [] },
         { person_id := "b", name := "b", description := "", occupation := [] }]
        [{ x := 0, y := 0, z := 0 }, { x := 1, y := 0, z := 0 }]
        [0, 1] (fun _ => "L") "t").length = 2 ∧
    (∀ r ∈ buildRecords
        [{ person_id := "a", name := "a", description := "", occupation := [] },
         { person_id := "b", name := "b", description := "", occupation := [] }]
        [{ x := 0, y := 0, z := 0 }, { x := 1, y := 0, z := 0 }]
        [0, 1] (fun _ => "L") "t", r.cluster_id < 2) ∧
    (∑ c ∈ Finset.range 2, List.count c [0, 1]) = 2 ∧
    (save_coordinates_to_bigquery []
        (buildRecords
          [{ person_id := "a", name := "a", description := "", occupation := [] },
           { person_id := "b", name := "b", description := "", occupation := [] }]
          [{ x := 0, y := 0, z := 0 }, { x := 1, y := 0, z := 0 }]
          [0, 1] (fun _ => "L") "t")).table =
      buildRecords
        [{ person_id := "a", name := "a", description := "", occupation := [] },
         { person_id := "b", name := "b", description := "", occupation := [] }]
        [{ x := 0, y := 0, z := 0 }, { x := 1, y := 0, z := 0 }]
        [0, 1] (fun _ => "L") "t" :=
  c8_cluster_invariants
    [{ person_id := "a", name := "a", description := "", occupation := [] },
     { person_id := "b", name := "b", description := "", occupation := [] }]
    [{ x := 0, y := 0, z := 0 }, { x := 1, y := 0, z := 0 }]
    [0, 1] 2 (fun _ => "L") "t" (by decide) (by decide) (by decide)

/-- C4 counterexample: a run whose save step finds a non-empty
`coordinates_3d` table skips the insert, so the persisted records remain
those of the earlier run, not the ones this run produced — and the
function even reports the stale row count. -/
theorem c4_counterexample :
    (save_coordinates_to_bigquery [oldRecord] [newRecord]).table =
      [oldRecord] ∧
    (save_coordinates_to_bigquery [oldRecord] [newRecord]).table ≠
      [newRecord] ∧
    (save_coordinates_to_bigquery [oldRecord] [newRecord]).returned = 1 := by
  decide

/-- C4 amended: a training run publishes its coordinate set only when
the table is empty; when prior records exist, the insert is skipped, the
previous persisted set stays visible unchanged, and the new set is saved
locally only — a new run does not supersede the prior persisted set. -/
theorem c4_publication (prior records : List CoordRecord) :
    (prior = [] →
      (save_coordinates_to_bigquery prior records).table = records ∧
      (save_coordinates_to_bigquery prior records).returned =
        records.length) ∧
    (prior ≠ [] →
      (save_coordinates_to_bigquery prior records).table = prior ∧
      (save_coordinates_to_bigquery prior records).localSaved = true ∧
      (save_coordinates_to_bigquery prior records).returned =
        prior.length) := by
  constructor
  · intro h
    subst h
    simp [save_coordinates_to_bigquery]
  · intro h
    have hpos : 0 < prior.length := List.length_pos.mpr h
    simp [save_coordinates_to_bigquery, hpos]

/-- Witness for C4 (amended) at concrete tables. -/
theorem c4_publication_witness :
    (save_coordinates_to_bigquery [] [newRecord]).table = [newRecord] ∧
    (save_coordinates_to_bigquery [oldRecord] [newRecord]).table =
      [oldRecord] :=
  ⟨((c4_publication [] [newRecord]).1 rfl).1,
   ((c4_publication [oldRecord] [newRecord]).2 (by decide)).1⟩

lemma headD_replicate (m : ℕ) (hm : 0 < m) (a : Vec) :
    (List.replicate m a).headD [] = a := by
  cases m with
  | zero => omega
  | succ m' => rfl

lemma allSameLength_replicate (m : ℕ) (v : Vec) :
    allSameLength (List.replicate m v) = true := by
  cases m with
  | zero => rfl
  | succ m' =>
    simp only [allSameLength, List.replicate_succ, List.all_eq_true]
    intro s hs
    rw [List.eq_of_mem_replicate hs]
    simp

/-- C1 counterexample: `run_full_pipeline` on an empty corpus prints a
message and returns normally (the early-return branch) — it raises
nothing; no `DataError` exists in the source. -/
theorem c1_counterexample :
    run_full_pipeline trivialLibs [] [] (some 10) "t" =
      (PipelineOutcome.earlyExit, []) := rfl

/-- C1 amended: training never raises a `DataError`: an empty corpus
causes a normal early return after logging, and no per-vector dimension
check against 768 exists — any homogeneous corpus large enough for the
downstream library calls (at least 50 samples and features for PCA,
`2 ≤ k ≤ n − 1` for the silhouette computation) runs to normal
completion regardless of its vector length. -/
theorem c1_no_data_error (libs : PipelineLibs)
    (corpus : List (PersonData × Vec)) (prior : List CoordRecord)
    (ts : String) (k : ℕ) :
    run_full_pipeline libs [] prior (some k) ts =
      (PipelineOutcome.earlyExit, prior) ∧
    (allSameLength (corpus.map (fun p => p.2)) = true →
     50 ≤ corpus.length →
     50 ≤ ((corpus.map (fun p => p.2)).headD []).length →
     2 ≤ k → k ≤ corpus.length - 1 →
     ∃ r, (run_full_pipeline libs corpus prior (some k) ts).1 =
       PipelineOutcome.completed r k) := by
  constructor
  · rfl
  · intro hsame hn hd h2 hk1
    simp only [run_full_pipeline, hsame, if_true]
    rw [if_neg (by omega : ¬ corpus.length = 0)]
    rw [if_neg (by omega :
      ¬ min corpus.length ((corpus.map (fun p => p.2)).headD []).length < 50)]
    rw [if_neg (by omega : ¬ corpus.length < k)]
    rw [if_pos ⟨h2, hk1⟩]
    exact ⟨_, rfl⟩

/-- Witness for C1 (amended): the empty corpus returns normally, and the
51-element corpus of 767-dimensional vectors completes the pipeline. -/
theorem c1_no_data_error_witness :
    run_full_pipeline trivialLibs [] [] (some 10) "t" =
      (PipelineOutcome.earlyExit, []) ∧
    ∃ r, (run_full_pipeline trivialLibs corpus767 [] (some 10) "t").1 =
      PipelineOutcome.completed r 10 :=
  ⟨(c1_no_data_error trivialLibs corpus767 [] "t" 10).1,
   (c1_no_data_error trivialLibs corpus767 [] "t" 10).2
     (by rw [corpus767, List.map_replicate]; exact allSameLength_replicate _ _)
     (by rw [corpus767, List.length_replicate]; norm_num)
     (by rw [corpus767, List.map_replicate,
          headD_replicate 51 (by norm_num), List.length_replicate]; norm_num)
     (by norm_num)
     (by rw [corpus767, List.length_replicate]; norm_num)⟩

/-- C2: every query in the Unready state yields the caller-visible 503
"not ready" outcome — by the shape of that outcome, neither a crash nor
the generic 500 — and a model-load failure (or missing model files) at
startup leaves the process running in the Unready state, whose queries
then receive that same 503. -/
theorem c2_unready_service (env : ServeEnv) (st : ServerState)
    (req : UserRequest) (filesExist : Bool)
    (loadPca : Except String PcaModel)
    (loadUmap : Except String UmapModel) :
    (st.models_loaded = false →
      generate_user_embedding env st req =
        QueryOutcome.httpError 503
          "Reduction models not loaded. Cannot generate user embeddings.") ∧
    ((filesExist = false ∨ (∃ e, loadPca = Except.error e) ∨
        (∃ e, loadUmap = Except.error e)) →
      ∃ st', startup_event initialState filesExist loadPca loadUmap =
          StartupOutcome.running st' ∧
        st'.models_loaded = false ∧
        generate_user_embedding env st' req =
          QueryOutcome.httpError 503
            "Reduction models not loaded. Cannot generate user embeddings.") := by
  have hun : ∀ s : ServerState, s.models_loaded = false →
      generate_user_embedding env s req =
        QueryOutcome.httpError 503
          "Reduction models not loaded. Cannot generate user embeddings." := by
    intro s hs
    simp [generate_user_embedding, hs]
  refine ⟨hun st, ?_⟩
  intro hfail
  cases hf : filesExist with
  | false =>
    exact ⟨initialState, by simp [startup_event], rfl, hun initialState rfl⟩
  | true =>
    cases hp : loadPca with
    | error e =>
      exact ⟨initialState, by simp [startup_event, hp], rfl,
        hun initialState rfl⟩
    | ok p =>
      cases hu : loadUmap with
      | error e =>
        exact ⟨{ initialState with pca_model := some p },
          by simp [startup_event, hp, hu], rfl, hun _ rfl⟩
      | ok u =>
        exfalso
        rcases hfail with h | ⟨e, he⟩ | ⟨e, he⟩
        · rw [hf] at h
          exact Bool.noConfusion h
        · rw [hp] at he
          cases he
        · rw [hu] at he
          cases he

/-- Witness for C2: a fresh process whose model files both fail to load
stays running, is Unready, and answers queries with the 503 outcome. -/
theorem c2_unready_service_witness :
    generate_user_embedding trivialEnv initialState emptyRequest =
      QueryOutcome.httpError 503
        "Reduction models not loaded. Cannot generate user embeddings." ∧
    ∃ st', startup_event initialState true
        (Except.error "unpickling error") (Except.error "unpickling error") =
        StartupOutcome.running st' ∧
      st'.models_loaded = false ∧
      generate_user_embedding trivialEnv st' emptyRequest =
        QueryOutcome.httpError 503
          "Reduction models not loaded. Cannot generate user embeddings." :=
  ⟨(c2_unready_service trivialEnv initialState emptyRequest true
      (Except.error "unpickling error") (Except.error "unpickling error")).1 rfl,
   (c2_unready_service trivialEnv initialState emptyRequest true
      (Except.error "unpickling error") (Except.error "unpickling error")).2
     (Or.inr (Or.inl ⟨"unpickling error", rfl⟩))⟩

/-- C5: a query vector whose length is not 768 (such as 767) is rejected
with the dimension-mismatch outcome before any projection — the result
does not depend on the loaded model — and the rejection is confined to
that query: the server state is unchanged and any later query's outcome
is unaffected. -/
theorem c5_dimension_mismatch (pca pca' : PcaModel) (um um' : UmapModel)
    (v : Vec) (hv : v.length ≠ 768) (env : ServeEnv) (st : ServerState)
    (req req' : UserRequest) :
    project_to_3d pca um v = Except.error ProjError.dimensionMismatch ∧
    project_to_3d pca um v = project_to_3d pca' um' v ∧
    (serveQuery env st req).2 = st ∧
    generate_user_embedding env (serveQuery env st req).2 req' =
      generate_user_embedding env st req' := by
  refine ⟨?_, ?_, rfl, rfl⟩
  · simp [project_to_3d, hv]
  · simp [project_to_3d, hv]

/-- Witness for C5 at a concrete length-767 vector. -/
theorem c5_dimension_mismatch_witness :
    project_to_3d trivialPca trivialUmap vec767 =
      Except.error ProjError.dimensionMismatch ∧
    project_to_3d trivialPca trivialUmap vec767 =
      project_to_3d trivialPca trivialUmap vec767 ∧
    (serveQuery trivialEnv initialState emptyRequest).2 = initialState ∧
    generate_user_embedding trivialEnv
        (serveQuery trivialEnv initialState emptyRequest).2 emptyRequest =
      generate_user_embedding trivialEnv initialState emptyRequest :=
  c5_dimension_mismatch trivialPca trivialPca trivialUmap trivialUmap vec767
    (by rw [vec767, List.length_replicate]; norm_num)
    trivialEnv initialState emptyRequest emptyRequest

/-- C9: the two-stage transform is a pure function of (model, vector) —
two calls agree — and the serving projection depends only on the
installed reduction models: two server states differing in anything
else (readiness flag, raw pickle globals, clock) produce identical
projection results. -/
theorem c9_transform_deterministic (M : ReductionModel) (v : Vec)
    (s₁ s₂ : ServerState) (hp : s₁.svc_pca = s₂.svc_pca)
    (hu : s₁.svc_umap = s₂.svc_umap) :
    M.transform v = M.transform v ∧
    serveProject s₁ v = serveProject s₂ v := by
  refine ⟨rfl, ?_⟩
  unfold serveProject
  rw [hp, hu]

/-- Witness for C9: two states sharing the installed models but
differing in flag and clock project identically. -/
theorem c9_transform_deterministic_witness :
    trivialModel.transform [] = trivialModel.transform [] ∧
    serveProject
        { models_loaded := true, pca_model := none, umap_model := none,
          svc_pca := some trivialPca, svc_umap := some trivialUmap,
          clock := 0 } [] =
      serveProject
        { models_loaded := false, pca_model := none, umap_model := none,
          svc_pca := some trivialPca, svc_umap := some trivialUmap,
          clock := 99 } [] :=
  c9_transform_deterministic trivialModel []
    { models_loaded := true, pca_model := none, umap_model := none,
      svc_pca := some trivialPca, svc_umap := some trivialUmap, clock := 0 }
    { models_loaded := false, pca_model := none, umap_model := none,
      svc_pca := some trivialPca, svc_umap := some trivialUmap, clock := 99 }
    rfl rfl

end LifeEmbedding
